import Mathlib

/-!
luamysql: the row decoder and the cursor protocol of `luamysql_module.c`.

A shallow embedding of the Lua binding in `src/luamysql/luamysql_module.c`:
`pushvalue`, `result_to_table`, `cursor_nullify`, `cursor_gc`, `cursor_numrows`,
`cursor_fetch`, `cursor_fetch_all`, `create_cursor` and `conn_execute`.

The two collaborators of the binding, the MySQL client library and the Lua C API, are
not part of the repository.  They are modelled here by the small state machines their
manuals describe; each such definition says so in its comment.  Exhaustion of the Lua
heap or stack (a failing allocation inside `lua_createtable`, `lua_newuserdata`,
`lua_pushlstring`, or `luaL_checkstack` refusing to grow the stack) is not modelled.
-/

namespace LuaMysql

/-! ## C strings and the libc parsers -/

/-- A run of bytes in memory, as seen through a `const char*`. -/
abbrev Bytes := List Nat

/-- The C string a `const char*` denotes: the bytes before the first NUL. -/
def c_str (p : Bytes) : Bytes := p.takeWhile (fun c => c != 0)

/-- The libc `isspace` in the C locale: space, `\t`, `\n`, `\v`, `\f`, `\r`. -/
def isspace (c : Nat) : Bool := c == 32 || (9 ≤ c && c ≤ 13)

/-- The libc `isdigit`. -/
def isdigit (c : Nat) : Bool := 48 ≤ c && c ≤ 57

def LLONG_MAX : Int := 9223372036854775807

def LLONG_MIN : Int := -9223372036854775808

/-- The digit loop of `strtoll` in base 10: consumes the leading run of digits. -/
def strtoll_digits : Bytes → Nat → Nat
  | [], acc => acc
  | c :: cs, acc => if isdigit c then strtoll_digits cs (10 * acc + (c - 48)) else acc

/-- The libc `atoll`, that is `strtoll(nptr, NULL, 10)`: leading white space is skipped,
one optional sign is read, then the leading run of digits; anything after it is ignored and
no digits at all give 0.  A value that does not fit a `long long` saturates, as glibc does
(the C standard leaves that case undefined). -/
def atoll (nptr : Bytes) : Int :=
  match (c_str nptr).dropWhile isspace with
  | [] => 0
  | c :: rest =>
    if c = 45 then max (-(strtoll_digits rest 0 : Int)) LLONG_MIN
    else if c = 43 then min (strtoll_digits rest 0 : Int) LLONG_MAX
    else min (strtoll_digits (c :: rest) 0 : Int) LLONG_MAX

/-- The `double` that the libc `atof` computes from a C string.  Floating point is not
interpreted in this development: the value is kept as the text `atof` was applied to. -/
structure CDouble where
  atof_text : Bytes
  deriving DecidableEq, Repr

def atof (nptr : Bytes) : CDouble := ⟨c_str nptr⟩

/-! ## The MySQL client library (collaborator) -/

/-- The column type tags of `enum enum_field_types` in `mysql_com.h`. -/
inductive enum_field_types where
  | MYSQL_TYPE_DECIMAL
  | MYSQL_TYPE_TINY
  | MYSQL_TYPE_SHORT
  | MYSQL_TYPE_LONG
  | MYSQL_TYPE_FLOAT
  | MYSQL_TYPE_DOUBLE
  | MYSQL_TYPE_NULL
  | MYSQL_TYPE_TIMESTAMP
  | MYSQL_TYPE_LONGLONG
  | MYSQL_TYPE_INT24
  | MYSQL_TYPE_DATE
  | MYSQL_TYPE_TIME
  | MYSQL_TYPE_DATETIME
  | MYSQL_TYPE_YEAR
  | MYSQL_TYPE_NEWDATE
  | MYSQL_TYPE_VARCHAR
  | MYSQL_TYPE_BIT
  | MYSQL_TYPE_TIMESTAMP2
  | MYSQL_TYPE_DATETIME2
  | MYSQL_TYPE_TIME2
  | MYSQL_TYPE_JSON
  | MYSQL_TYPE_NEWDECIMAL
  | MYSQL_TYPE_ENUM
  | MYSQL_TYPE_SET
  | MYSQL_TYPE_TINY_BLOB
  | MYSQL_TYPE_MEDIUM_BLOB
  | MYSQL_TYPE_LONG_BLOB
  | MYSQL_TYPE_BLOB
  | MYSQL_TYPE_VAR_STRING
  | MYSQL_TYPE_STRING
  | MYSQL_TYPE_GEOMETRY
  deriving DecidableEq, Repr

open enum_field_types

/-- The two members of `MYSQL_FIELD` the binding reads: the column name (a C string) and
the column type. -/
structure MYSQL_FIELD where
  name : String
  type : enum_field_types
  deriving DecidableEq, Repr

/-- A `MYSQL_ROW` (`char**`): one pointer per column, NULL (`none`) for an SQL NULL.  A
non-NULL pointer is modelled by the bytes of the column value it points at.  The memory
behind the value (its terminating NUL, then the next column) is not represented: a read of
more bytes than the value holds, which in C runs on into that memory, stops at the end of
the value here. -/
abbrev MYSQL_ROW := List (Option Bytes)

/-- The byte lengths of the columns of a row, as the client library computes them:
0 for a NULL column, the size of the value otherwise. -/
def row_lengths (row : MYSQL_ROW) : List Nat :=
  row.map (fun col => match col with
    | none => 0
    | some b => b.length)

/-- The state of a `MYSQL_RES` result handle.
* `fields`: the column metadata (`res->fields`, `res->field_count` of them);
* `stored`: whether the rows were transferred up front (`mysql_store_result`, `res->data`
  is set) or are read from the connection one by one (`mysql_use_result`);
* `pending`: the rows `mysql_fetch_row` has not returned yet, in fetch order;
* `current_row`: `res->current_row`;
* `lengths`: the buffer `res->lengths`, which `mysql_fetch_lengths` returns a pointer to;
* `row_count`: `res->row_count`, what `mysql_num_rows` reports. -/
structure MYSQL_RES where
  fields : List MYSQL_FIELD
  stored : Bool
  pending : List MYSQL_ROW
  current_row : Option MYSQL_ROW
  lengths : List Nat
  row_count : Nat
  deriving DecidableEq, Repr

/-- The client library `mysql_fetch_row`: returns the next row, or NULL when there is
none left.  On a stored result it only advances the row cursor; on an unbuffered one it
reads the row from the connection, which also fills `res->lengths` and counts the row. -/
def mysql_fetch_row (res : MYSQL_RES) : Option MYSQL_ROW × MYSQL_RES :=
  match res.pending with
  | [] => (none, { res with current_row := none })
  | row :: rest =>
    if res.stored then
      (some row, { res with pending := rest, current_row := some row })
    else
      (some row, { res with pending := rest, current_row := some row,
                            lengths := row_lengths row, row_count := res.row_count + 1 })

/-- The client library `mysql_fetch_lengths`: NULL when there is no current row;
otherwise, for a stored result, the lengths of the current row are computed into
`res->lengths` at this call, and the buffer is returned.  The lengths it gives are those of
the current row only: after the next `mysql_fetch_row` they must be asked for again. -/
def mysql_fetch_lengths (res : MYSQL_RES) : Option (List Nat) × MYSQL_RES :=
  match res.current_row with
  | none => (none, res)
  | some row =>
    if res.stored then
      (some (row_lengths row), { res with lengths := row_lengths row })
    else
      (some res.lengths, res)

/-- The client library `mysql_fetch_fields`: the array `res->fields`. -/
def mysql_fetch_fields (res : MYSQL_RES) : Option (List MYSQL_FIELD) := some res.fields

/-- The client library `mysql_num_rows`: `res->row_count`. -/
def mysql_num_rows (res : MYSQL_RES) : Nat := res.row_count

/-! ## The Lua C API (collaborator) -/

/-- The scalar Lua values `pushvalue` produces. -/
inductive LuaValue where
  | nil
  | integer (i : Int)
  | number (x : CDouble)
  | string (s : Bytes)
  deriving DecidableEq, Repr

/-- A Lua table key: an integer or a string. -/
inductive LuaKey where
  | int (i : Int)
  | str (s : String)
  deriving DecidableEq, Repr

/-- A Lua 5.3 table: the array part (slot `k` of the list is index `k + 1`) and the nodes
of the hash part.  A slot or a node whose value is nil reads as an absent entry. -/
structure LuaTable (V : Type) where
  array : List V
  node : List (LuaKey × V)
  deriving DecidableEq, Repr

/-- What a Lua error carries: `luaL_argerror` (from `luaL_argcheck`) names the argument and
the extra message, `luaL_error` carries the formatted message. -/
inductive LuaError where
  | argerror (arg : Nat) (extramsg : String)
  | error (msg : String)
  deriving DecidableEq, Repr

deriving instance DecidableEq for Except

def LUA_NOREF : Int := -2

def LUA_REFNIL : Int := -1

/-- The conversion of a C `unsigned long long` to `lua_Integer` (a 64-bit two's
complement integer). -/
def to_lua_Integer (x : Nat) : Int := ((x : Int) + 2 ^ 63) % 2 ^ 64 - 2 ^ 63

/-- The conversion of a C `unsigned long long` to `int` (32-bit two's complement). -/
def to_int (x : Nat) : Int := ((x : Int) + 2 ^ 31) % 2 ^ 32 - 2 ^ 31

/-- The Lua `lua_createtable(L, narr, nrec)`: a new table whose array part has `narr` nil
slots (none when `narr` is not positive) and whose hash part has no node yet. -/
def lua_createtable {V : Type} (nilv : V) (narr : Int) : LuaTable V :=
  { array := List.replicate narr.toNat nilv, node := [] }

/-- Assignment to a key of the hash part: the node of the key takes the value when there
is one, otherwise a node is added at the end. -/
def luaH_set {V : Type} : List (LuaKey × V) → LuaKey → V → List (LuaKey × V)
  | [], k, v => [(k, v)]
  | (k0, v0) :: rest, k, v =>
    if k0 = k then (k0, v) :: rest else (k0, v0) :: luaH_set rest k v

/-- Lookup of a key in the hash part. -/
def luaH_get {V : Type} : List (LuaKey × V) → LuaKey → Option V
  | [], _ => none
  | (k0, v0) :: rest, k => if k0 = k then some v0 else luaH_get rest k

/-- The Lua `lua_rawseti(L, idx, n)`: `t[n] = v`; an index inside the array part writes
the slot, any other goes to the hash part. -/
def lua_rawseti {V : Type} (t : LuaTable V) (n : Int) (v : V) : LuaTable V :=
  if 1 ≤ n ∧ n ≤ (t.array.length : Int) then
    { t with array := t.array.set (n - 1).toNat v }
  else
    { t with node := luaH_set t.node (LuaKey.int n) v }

/-- The Lua `lua_setfield(L, idx, k)`: `t[k] = v` for a string key (a new table has no
metatable, so this is a plain assignment). -/
def lua_setfield {V : Type} (t : LuaTable V) (k : String) (v : V) : LuaTable V :=
  { t with node := luaH_set t.node (LuaKey.str k) v }

/-- The Lua `lua_rawgeti(L, idx, n)`: the value `t[n]`, nil when the table has none. -/
def lua_rawgeti {V : Type} (nilv : V) (t : LuaTable V) (n : Int) : V :=
  if 1 ≤ n ∧ n ≤ (t.array.length : Int) then
    t.array.getD (n - 1).toNat nilv
  else
    (luaH_get t.node (LuaKey.int n)).getD nilv

/-- The Lua `lua_getfield(L, idx, k)` on a table without metatable: the value `t[k]`,
nil when the table has none. -/
def lua_getfield {V : Type} (nilv : V) (t : LuaTable V) (k : String) : V :=
  (luaH_get t.node (LuaKey.str k)).getD nilv

/-! ## The binding: `luamysql_module.c` -/

/-- The C `pushvalue`: the Lua value pushed for one column of a row. -/
def pushvalue (type : enum_field_types) (row : Option Bytes) (len : Nat) : LuaValue :=
  match row with
  | none => LuaValue.nil
  | some p =>
    if type = MYSQL_TYPE_NULL then LuaValue.nil
    else
      match type with
      | MYSQL_TYPE_BIT
      | MYSQL_TYPE_TINY
      | MYSQL_TYPE_SHORT
      | MYSQL_TYPE_INT24
      | MYSQL_TYPE_YEAR
      | MYSQL_TYPE_LONG
      | MYSQL_TYPE_LONGLONG => LuaValue.integer (atoll p)
      | MYSQL_TYPE_DECIMAL
      | MYSQL_TYPE_NEWDECIMAL
      | MYSQL_TYPE_FLOAT
      | MYSQL_TYPE_DOUBLE => LuaValue.number (atof p)
      | _ => LuaValue.string (p.take len)

/-- The C `struct _Cursor`.  `my_res` is the owned `MYSQL_RES*` (NULL is `none`; the state
of the handle it points at is carried along), `fields` the cached `MYSQL_FIELD*`, `conn` the
registry reference that keeps the connection alive. -/
structure Cursor where
  conn : Int
  fetch_all : Int
  numcols : Nat
  my_res : Option MYSQL_RES
  fields : Option (List MYSQL_FIELD)
  deriving DecidableEq, Repr

/-- The release calls made so far on the two collaborators: how many times
`mysql_free_result` was called, and the registry references given to `luaL_unref`. -/
structure World where
  free_result_calls : Nat
  unref_calls : List Int
  deriving DecidableEq, Repr

/-- The C `cursor_nullify`. -/
def cursor_nullify (w : World) (cur : Cursor) : World × Cursor :=
  let (w1, cur1) :=
    match cur.my_res with
    | some _ =>
      ({ w with free_result_calls := w.free_result_calls + 1 },
       { cur with my_res := none, fields := none })
    | none => (w, cur)
  if cur1.conn ≠ LUA_NOREF then
    ({ w1 with unref_calls := w1.unref_calls ++ [cur1.conn] }, { cur1 with conn := LUA_NOREF })
  else
    (w1, cur1)

/-- The C `cursor_gc`, the `__gc` metamethod: the only release operation of a cursor
besides `fetchAll`. -/
def cursor_gc (w : World) (cur : Cursor) : World × Cursor :=
  cursor_nullify w cur

/-- The C `cursor_numrows`. -/
def cursor_numrows (cur : Cursor) : Except LuaError Int :=
  match cur.my_res with
  | none => Except.error (LuaError.argerror 1 "invalid Cursor object")
  | some res => Except.ok (to_lua_Integer (mysql_num_rows res))

/-- The element `cur->fields[i]`.  A read outside the array (undefined in C) gives a
default here; so does a read through a NULL `cur->fields`. -/
def Cursor.field (cur : Cursor) (i : Nat) : MYSQL_FIELD :=
  (cur.fields.getD []).getD i { name := "", type := MYSQL_TYPE_NULL }

/-- The C `result_to_table`: the Lua table built for one row, keyed by column name when
`alpha_idx` is set and by column position otherwise. -/
def result_to_table (cur : Cursor) (row : MYSQL_ROW) (lengths : List Nat)
    (alpha_idx : Bool) : LuaTable LuaValue :=
  if alpha_idx then
    (List.range cur.numcols).foldl
      (fun t i =>
        lua_setfield t (cur.field i).name
          (pushvalue (cur.field i).type (row.getD i none) (lengths.getD i 0)))
      (lua_createtable LuaValue.nil 0)
  else
    (List.range cur.numcols).foldl
      (fun t i =>
        lua_rawseti t ((i + 1 : Nat) : Int)
          (pushvalue (cur.field i).type (row.getD i none) (lengths.getD i 0)))
      (lua_createtable LuaValue.nil cur.numcols)

/-- The option test shared by `cursor_fetch` and `cursor_fetch_all`:
`opt && strcmp(opt, "a") == 0`, where `opt` is what `lua_tostring(L, 2)` returns. -/
def alpha_option (opt : Option String) : Bool := opt == some "a"

/-- The C `cursor_fetch` (`fetch`): the returned values (`none` is "no value", the end of
the rows) or the error raised, and the cursor afterwards.  The call
`luaL_checkstack(L, cur->numcols, "too many columns")` only reserves Lua stack space and
has no counterpart here. -/
def cursor_fetch (cur : Cursor) (opt : Option String) :
    Except LuaError (Option (LuaTable LuaValue)) × Cursor :=
  match cur.my_res with
  | none => (Except.error (LuaError.argerror 1 "invalid Cursor object"), cur)
  | some res =>
    let alpha_idx := alpha_option opt
    match mysql_fetch_row res with
    | (none, res1) => (Except.ok none, { cur with my_res := some res1 })
    | (some row, res1) =>
      let lengths := (mysql_fetch_lengths res1).1
      let res2 := (mysql_fetch_lengths res1).2
      let cur1 : Cursor :=
        { cur with
            my_res := some res2
            fields := if cur.fields = none then mysql_fetch_fields res2 else cur.fields }
      match lengths, cur1.fields with
      | some ls, some _ => (Except.ok (some (result_to_table cur1 row ls alpha_idx)), cur1)
      | _, _ => (Except.error (LuaError.argerror 1 "fetch fields failed"), cur1)

/-- The `while (row)` loop of the C `cursor_fetch_all`: the row at hand is stored at
`rownum`, then the next one is pulled.  `lengths` is not assigned in the loop: it keeps
pointing at `res->lengths`, which is read as it is at each turn. -/
def fetch_all_loop (cur : Cursor) (alpha_idx : Bool) (res : MYSQL_RES) (row : MYSQL_ROW)
    (tbl : LuaTable (Option (LuaTable LuaValue))) (rownum : Int) :
    LuaTable (Option (LuaTable LuaValue)) × MYSQL_RES :=
  match h : mysql_fetch_row res with
  | (none, res1) =>
    (lua_rawseti tbl rownum (some (result_to_table cur row res.lengths alpha_idx)), res1)
  | (some row1, res1) =>
    fetch_all_loop cur alpha_idx res1 row1
      (lua_rawseti tbl rownum (some (result_to_table cur row res.lengths alpha_idx)))
      (rownum + 1)
termination_by res.pending.length
decreasing_by
  unfold mysql_fetch_row at h
  split at h
  · simp at h
  · rename_i hp
    split at h <;> simp only [Prod.mk.injEq] at h <;> obtain ⟨_, h2⟩ := h <;> subst h2 <;>
      simp [hp]

/-- The C `cursor_fetch_all` (`fetchAll`): the returned values (`none` is "no value") or
the error raised, the release calls made, and the cursor afterwards. -/
def cursor_fetch_all (w : World) (cur : Cursor) (opt : Option String) :
    Except LuaError (Option (LuaTable (Option (LuaTable LuaValue)))) × World × Cursor :=
  match cur.my_res with
  | none => (Except.error (LuaError.argerror 1 "invalid Cursor object"), w, cur)
  | some res =>
    if cur.fetch_all = 0 then
      (Except.error (LuaError.argerror 1 "not compatible with execute()"), w, cur)
    else
      let alpha_idx := alpha_option opt
      match mysql_fetch_row res with
      | (none, res1) =>
        (Except.ok none, cursor_nullify w { cur with my_res := some res1 })
      | (some row, res1) =>
        if cur.numcols = 0 then
          (Except.ok none, cursor_nullify w { cur with my_res := some res1 })
        else
          let fields := if cur.fields = none then mysql_fetch_fields res1 else cur.fields
          let lengths := (mysql_fetch_lengths res1).1
          let res2 := (mysql_fetch_lengths res1).2
          let cur1 : Cursor := { cur with my_res := some res2, fields := fields }
          match lengths, fields with
          | some _, some _ =>
            let num_rows := to_int (mysql_num_rows res2)
            let out := fetch_all_loop cur1 alpha_idx res2 row (lua_createtable none num_rows) 1
            (Except.ok (some out.1), cursor_nullify w { cur1 with my_res := some out.2 })
          | _, _ => (Except.error (LuaError.argerror 1 "fetch fields failed"), w, cur1)

/-- What the client library answers to the calls `conn_execute` makes for a statement:
the return code of `mysql_real_query` and the text of `mysql_error`, then the handles
`mysql_store_result` and `mysql_use_result` would give (NULL is `none`), and the values of
`mysql_field_count` and `mysql_affected_rows`. -/
structure MYSQL where
  real_query : Int
  error : String
  store_result : Option MYSQL_RES
  use_result : Option MYSQL_RES
  field_count : Nat
  affected_rows : Nat
  deriving DecidableEq, Repr

/-- The client library `mysql_real_query`: sends the statement, returns 0 on success. -/
def mysql_real_query (mysql : MYSQL) (_stmt : String) : Int := mysql.real_query

/-- The C `struct _Connection`. -/
structure Connection where
  closed : Int
  my_conn : MYSQL
  deriving DecidableEq, Repr

/-- What `conn_execute` returns to Lua: a new cursor userdata, an integer, or no value. -/
inductive ExecReturn where
  | cursor (cur : Cursor)
  | integer (i : Int)
  | nothing
  deriving DecidableEq, Repr

/-- The C `create_cursor`; `ref` is the registry reference `luaL_ref` hands out for the
connection. -/
def create_cursor (ref : Int) (result : MYSQL_RES) (numcols : Nat) (fetch_all : Int) : Cursor :=
  { conn := ref, numcols := numcols, fetch_all := fetch_all, fields := none, my_res := some result }

/-- The C `conn_execute` (`execute`); `fetch_opt` is what `lua_tostring(L, 3)` returns and
`ref` the registry reference `luaL_ref` would hand out. -/
def conn_execute (conn : Connection) (stmt : String) (fetch_opt : Option String) (ref : Int) :
    Except LuaError ExecReturn :=
  if conn.closed ≠ 0 then Except.error (LuaError.argerror 1 "invalid Connection object")
  else
    let fetch_all : Int :=
      match fetch_opt with
      | none => 1
      | some o => if o = "store" then 1 else if o = "use" then 0 else 1
    let my_conn := conn.my_conn
    let err := mysql_real_query my_conn stmt
    if err ≠ 0 then
      Except.error (LuaError.error (toString err ++ ": " ++ my_conn.error ++ "\n"))
    else
      let res := if fetch_all ≠ 0 then my_conn.store_result else my_conn.use_result
      let numcols := my_conn.field_count
      match res with
      | some r => Except.ok (ExecReturn.cursor (create_cursor ref r numcols fetch_all))
      | none =>
        if numcols = 0 then
          Except.ok (ExecReturn.integer (to_lua_Integer my_conn.affected_rows))
        else
          Except.ok ExecReturn.nothing

/-! ## Specification vocabulary -/

/-- The integer family of wire types: bit, tiny, short, int24, year, long, longlong. -/
def integer_family : List enum_field_types :=
  [MYSQL_TYPE_BIT, MYSQL_TYPE_TINY, MYSQL_TYPE_SHORT, MYSQL_TYPE_INT24, MYSQL_TYPE_YEAR,
   MYSQL_TYPE_LONG, MYSQL_TYPE_LONGLONG]

/-- The decimal/float family of wire types: decimal, new-decimal, float, double. -/
def float_family : List enum_field_types :=
  [MYSQL_TYPE_DECIMAL, MYSQL_TYPE_NEWDECIMAL, MYSQL_TYPE_FLOAT, MYSQL_TYPE_DOUBLE]

/-- The decoded value of column `i` of a row: `pushvalue` applied to the wire type of
column `i`, the raw buffer of column `i` and the byte length of column `i`. -/
def decode_column (columns : List MYSQL_FIELD) (row : MYSQL_ROW) (lengths : List Nat)
    (i : Nat) : LuaValue :=
  pushvalue (columns.getD i { name := "", type := MYSQL_TYPE_NULL }).type (row.getD i none)
    (lengths.getD i 0)

/-- The text of a decimal numeral: the ASCII codes of its digits, most significant first. -/
def numeral (ds : List Nat) : Bytes := ds.map (fun d => d + 48)

/-- The number a decimal numeral denotes (digits most significant first). -/
def numeral_value (ds : List Nat) : Nat := Nat.ofDigits 10 ds.reverse

/-- Assignments `t[n] = v1`, `t[n + 1] = v2`, ... of a list of values at successive
integer indices, each by `lua_rawseti`. -/
def rawseti_from {V : Type} (t : LuaTable V) (n : Int) : List V → LuaTable V
  | [] => t
  | v :: vs => rawseti_from (lua_rawseti t n v) (n + 1) vs

/-- Successive `fetch` calls on a cursor, one per option given: the outcomes in call order
and the cursor after the last call. -/
def fetch_seq (cur : Cursor) :
    List (Option String) → List (Except LuaError (Option (LuaTable LuaValue))) × Cursor
  | [] => ([], cur)
  | opt :: opts =>
    ((cursor_fetch cur opt).1 :: (fetch_seq (cursor_fetch cur opt).2 opts).1,
     (fetch_seq (cursor_fetch cur opt).2 opts).2)

/-! ### Sample data -/

/-- The bytes of an ASCII text. -/
def ascii (s : String) : Bytes := s.toList.map Char.toNat

/-- A stored result of two rows and one text column: "a", then "bcd". -/
def res2x1 : MYSQL_RES :=
  { fields := [⟨"s", MYSQL_TYPE_VAR_STRING⟩], stored := true,
    pending := [[some (ascii "a")], [some (ascii "bcd")]], current_row := none,
    lengths := [], row_count := 2 }

/-- The Buffered cursor `create_cursor` makes over `res2x1`. -/
def cur2x1 : Cursor := create_cursor 7 res2x1 1 1

/-- A stored result of three rows and two integer columns. -/
def res3x2 : MYSQL_RES :=
  { fields := [⟨"id", MYSQL_TYPE_LONG⟩, ⟨"n", MYSQL_TYPE_LONGLONG⟩], stored := true,
    pending := [[some (ascii "1"), some (ascii "10")], [some (ascii "2"), none],
                [some (ascii "3"), some (ascii "30")]],
    current_row := none, lengths := [], row_count := 3 }

/-- The Buffered cursor `create_cursor` makes over `res3x2`. -/
def cur3x2 : Cursor := create_cursor 7 res3x2 2 1

/-- An unbuffered result (`mysql_use_result`) of the same rows as `res3x2`. -/
def res3x2_use : MYSQL_RES := { res3x2 with stored := false, row_count := 0 }

/-- A connection whose server answers the statement with the rows of `res3x2`. -/
def conn_select : Connection :=
  { closed := 0,
    my_conn := { real_query := 0, error := "", store_result := some res3x2,
                 use_result := some res3x2_use, field_count := 2, affected_rows := 0 } }

/-- A connection whose server answers the statement with "5 rows affected". -/
def conn_update : Connection :=
  { closed := 0,
    my_conn := { real_query := 0, error := "", store_result := none, use_result := none,
                 field_count := 0, affected_rows := 5 } }

/-- A connection on which the query succeeds with two columns announced, and the
retrieval of the result then fails (`mysql_store_result` returns NULL). -/
def conn_store_fails : Connection :=
  { closed := 0,
    my_conn := { real_query := 0, error := "Lost connection to MySQL server during query",
                 store_result := none, use_result := none, field_count := 2,
                 affected_rows := 0 } }

/-- A cursor over a two-column result whose columns are both named "a"
(`SELECT 1 AS a, 2 AS a`), with the column metadata already cached. -/
def cur_aa : Cursor :=
  { conn := 7, fetch_all := 1, numcols := 2,
    my_res := some { fields := [⟨"a", MYSQL_TYPE_LONG⟩, ⟨"a", MYSQL_TYPE_LONG⟩], stored := true,
                     pending := [], current_row := some [some (ascii "1"), some (ascii "2")],
                     lengths := [1, 1], row_count := 1 },
    fields := some [⟨"a", MYSQL_TYPE_LONG⟩, ⟨"a", MYSQL_TYPE_LONG⟩] }

/-- A connection on which the query itself fails (`mysql_real_query` returns 1). -/
def conn_query_fails : Connection :=
  { closed := 0,
    my_conn := { real_query := 1, error := "You have an error in your SQL syntax",
                 store_result := none, use_result := none, field_count := 0,
                 affected_rows := 0 } }

/-- A world in which nothing was released yet. -/
def w0 : World := { free_result_calls := 0, unref_calls := [] }

/-! ## Lemmas -/

theorem strtoll_digits_numeral (ds : List Nat) (h : ∀ d ∈ ds, d < 10) (acc : Nat) :
    strtoll_digits (numeral ds) acc = Nat.ofDigits 10 (ds.reverse ++ [acc]) := by
  induction ds generalizing acc with
  | nil => simp [numeral, strtoll_digits]
  | cons d ds ih =>
    have hd : d < 10 := h d (List.mem_cons_self _ _)
    have hds : ∀ e ∈ ds, e < 10 := fun e he => h e (List.mem_cons_of_mem _ he)
    have hdig : isdigit (d + 48) = true := by
      simp only [isdigit, Bool.and_eq_true, decide_eq_true_eq]
      omega
    have ih1 := ih hds (10 * acc + d)
    simp only [numeral] at ih1
    simp only [numeral, List.map_cons, strtoll_digits, hdig, if_true, Nat.add_sub_cancel, ih1]
    simp only [List.reverse_cons, Nat.ofDigits_append, Nat.ofDigits_singleton, List.length_append,
      List.length_singleton, List.length_reverse]
    ring

theorem strtoll_digits_numeral_zero (ds : List Nat) (h : ∀ d ∈ ds, d < 10) :
    strtoll_digits (numeral ds) 0 = numeral_value ds := by
  rw [strtoll_digits_numeral ds h 0, numeral_value, Nat.ofDigits_append]
  simp

theorem c_str_numeral (ds : List Nat) :
    c_str (numeral ds) = numeral ds := by
  unfold c_str
  rw [List.takeWhile_eq_self_iff]
  intro c hc
  simp only [numeral, List.mem_map] at hc
  obtain ⟨d, _, rfl⟩ := hc
  simp

theorem atoll_numeral (ds : List Nat) (h : ∀ d ∈ ds, d < 10) :
    atoll (numeral ds) = min (numeral_value ds : Int) LLONG_MAX := by
  unfold atoll
  rw [c_str_numeral]
  cases ds with
  | nil => simp [numeral, numeral_value, LLONG_MAX]
  | cons d ds =>
    have hd : d < 10 := h d (List.mem_cons_self _ _)
    have hsp : isspace (d + 48) = false := by
      simp only [isspace, Bool.or_eq_false_iff, beq_eq_false_iff_ne, Bool.and_eq_false_iff,
        decide_eq_false_iff_not]
      omega
    have h45 : ¬ d + 48 = 45 := by omega
    have h43 : ¬ d + 48 = 43 := by omega
    have hz := strtoll_digits_numeral_zero (d :: ds) h
    simp only [numeral, List.map_cons] at hz
    have hdw : List.dropWhile isspace ((d + 48) :: List.map (fun d => d + 48) ds)
        = (d + 48) :: List.map (fun d => d + 48) ds := by
      simp [List.dropWhile_cons, hsp]
    simp only [numeral, List.map_cons, hdw, h45, h43, if_false]
    rw [hz]

theorem atoll_minus_numeral (ds : List Nat) (h : ∀ d ∈ ds, d < 10) :
    atoll (45 :: numeral ds) = max (-(numeral_value ds : Int)) LLONG_MIN := by
  have hc : c_str (45 :: numeral ds) = 45 :: numeral ds := by
    have := c_str_numeral ds
    unfold c_str at this ⊢
    simp [List.takeWhile_cons, this]
  unfold atoll
  rw [hc]
  have hsp : isspace 45 = false := by decide
  have hdw : List.dropWhile isspace (45 :: numeral ds) = 45 :: numeral ds := by
    simp [List.dropWhile_cons, hsp]
  simp only [hdw, if_true]
  rw [strtoll_digits_numeral_zero ds h]

/-! ## C3: the value decoder -/

/-- C3. The decoder `pushvalue` is a total function of (wire type, raw bytes, length) into
Lua values, so it never raises.  It yields nil when the raw bytes are absent, and when the
wire type is the null type, whatever the other arguments.  For a present buffer and a wire
type of the integer family it yields the integer `atoll` parses from the text, which lies in
the signed 64-bit range; in particular a decimal numeral (with or without a minus sign)
whose value lies in that range yields exactly that value.  For a present buffer and a wire
type outside the null, integer and decimal/float families it yields the first `len` bytes of
the buffer unchanged: a byte string of exactly `len` bytes when the buffer holds at least
`len` bytes, and the whole buffer when `len` is its size. -/
theorem pushvalue_type_directed :
    (∀ (t : enum_field_types) (len : Nat), pushvalue t none len = LuaValue.nil) ∧
    (∀ (row : Option Bytes) (len : Nat), pushvalue MYSQL_TYPE_NULL row len = LuaValue.nil) ∧
    (∀ (t : enum_field_types) (p : Bytes) (len : Nat), t ∈ integer_family →
      pushvalue t (some p) len = LuaValue.integer (atoll p) ∧
      LLONG_MIN ≤ atoll p ∧ atoll p ≤ LLONG_MAX) ∧
    (∀ (t : enum_field_types) (ds : List Nat) (len : Nat), t ∈ integer_family →
      (∀ d ∈ ds, d < 10) →
      ((numeral_value ds : Int) ≤ LLONG_MAX →
        pushvalue t (some (numeral ds)) len = LuaValue.integer (numeral_value ds)) ∧
      (LLONG_MIN ≤ -(numeral_value ds : Int) →
        pushvalue t (some (45 :: numeral ds)) len = LuaValue.integer (-(numeral_value ds : Int)))) ∧
    (∀ (t : enum_field_types) (p : Bytes) (len : Nat), t ≠ MYSQL_TYPE_NULL →
      t ∉ integer_family → t ∉ float_family →
      pushvalue t (some p) len = LuaValue.string (p.take len) ∧
      (len ≤ p.length → (p.take len).length = len) ∧
      (len = p.length → pushvalue t (some p) len = LuaValue.string p)) := by
  have hint : ∀ (t : enum_field_types) (p : Bytes) (len : Nat), t ∈ integer_family →
      pushvalue t (some p) len = LuaValue.integer (atoll p) := by
    intro t p len ht
    cases t <;> simp [integer_family] at ht <;> simp [pushvalue]
  refine ⟨?_, ?_, ?_, ?_, ?_⟩
  · intro t len
    rfl
  · intro row len
    cases row <;> simp [pushvalue]
  · intro t p len ht
    refine ⟨hint t p len ht, ?_, ?_⟩
    · unfold atoll
      split
      · decide
      · split
        · exact le_max_right _ _
        · split
          · exact le_min (by simp [LLONG_MIN]; omega) (by decide)
          · exact le_min (by simp [LLONG_MIN]; omega) (by decide)
    · unfold atoll
      split
      · decide
      · split
        · exact max_le (by simp [LLONG_MAX]; omega) (by decide)
        · split
          · exact min_le_right _ _
          · exact min_le_right _ _
  · intro t ds len ht hds
    constructor
    · intro hle
      rw [hint t _ len ht, atoll_numeral ds hds, min_eq_left hle]
    · intro hle
      rw [hint t _ len ht, atoll_minus_numeral ds hds, max_eq_left hle]
  · intro t p len hnull hni hnf
    have hs : pushvalue t (some p) len = LuaValue.string (p.take len) := by
      cases t <;> simp [integer_family] at hni <;> simp [float_family] at hnf <;>
        simp at hnull <;> simp [pushvalue]
    refine ⟨hs, ?_, ?_⟩
    · intro hlen
      simp [List.length_take, hlen]
    · intro hlen
      rw [hs, hlen, List.take_length]

/-- C3, instance: a `MYSQL_TYPE_LONG` column decodes the text "42" to 42 and "-42" to -42;
a `MYSQL_TYPE_VAR_STRING` column decodes to its own bytes. -/
theorem pushvalue_type_directed_witness :
    (MYSQL_TYPE_LONG ∈ integer_family ∧ (numeral_value [4, 2] : Int) ≤ LLONG_MAX ∧
      LLONG_MIN ≤ -(numeral_value [4, 2] : Int) ∧
      pushvalue MYSQL_TYPE_LONG (some (numeral [4, 2])) 2
        = LuaValue.integer (numeral_value [4, 2]) ∧
      pushvalue MYSQL_TYPE_LONG (some (45 :: numeral [4, 2])) 3
        = LuaValue.integer (-(numeral_value [4, 2] : Int))) ∧
    (MYSQL_TYPE_VAR_STRING ≠ MYSQL_TYPE_NULL ∧ MYSQL_TYPE_VAR_STRING ∉ integer_family ∧
      MYSQL_TYPE_VAR_STRING ∉ float_family ∧
      pushvalue MYSQL_TYPE_VAR_STRING (some [97, 98]) 2 = LuaValue.string [97, 98]) :=
  ⟨⟨by decide, by decide, by decide,
    (pushvalue_type_directed.2.2.2.1 MYSQL_TYPE_LONG [4, 2] 2 (by decide) (by decide)).1
      (by decide),
    (pushvalue_type_directed.2.2.2.1 MYSQL_TYPE_LONG [4, 2] 3 (by decide) (by decide)).2
      (by decide)⟩,
   ⟨by decide, by decide, by decide,
    (pushvalue_type_directed.2.2.2.2 MYSQL_TYPE_VAR_STRING [97, 98] 2 (by decide) (by decide)
      (by decide)).2.2 rfl⟩⟩

/-! ## Release: `cursor_nullify` -/

theorem cursor_nullify_fields (w : World) (cur : Cursor) :
    (cursor_nullify w cur).2.my_res = none ∧
    (cursor_nullify w cur).2.conn = LUA_NOREF ∧
    (cursor_nullify w cur).2.fetch_all = cur.fetch_all ∧
    (cursor_nullify w cur).2.numcols = cur.numcols := by
  unfold cursor_nullify
  cases hres : cur.my_res <;> by_cases hc : cur.conn = LUA_NOREF <;> simp [hres, hc]

theorem cursor_nullify_live (w : World) (cur : Cursor) (res : MYSQL_RES)
    (hres : cur.my_res = some res) :
    (cursor_nullify w cur).1.free_result_calls = w.free_result_calls + 1 ∧
    (cursor_nullify w cur).1.unref_calls
      = w.unref_calls ++ (if cur.conn ≠ LUA_NOREF then [cur.conn] else []) ∧
    (cursor_nullify w cur).2.fields = none := by
  unfold cursor_nullify
  by_cases hc : cur.conn = LUA_NOREF <;> simp [hres, hc]

theorem cursor_nullify_released (w : World) (cur : Cursor) (hres : cur.my_res = none)
    (hconn : cur.conn = LUA_NOREF) : cursor_nullify w cur = (w, cur) := by
  unfold cursor_nullify
  simp [hres, hconn]

/-! ## C8: release is idempotent -/

/-- C8. Release (`cursor_gc`, that is `cursor_nullify`) is idempotent on every cursor state:
a second release changes neither the cursor nor the record of release calls, so it makes no
`mysql_free_result` call and no `luaL_unref` call.  The first release frees the native
handle exactly once when it was live and not at all when it was not, and unreferences the
connection exactly when a reference was held. -/
theorem cursor_gc_idempotent (w : World) (cur : Cursor) :
    cursor_gc (cursor_gc w cur).1 (cursor_gc w cur).2 = cursor_gc w cur ∧
    (cursor_gc (cursor_gc w cur).1 (cursor_gc w cur).2).1.free_result_calls
      = w.free_result_calls + (if cur.my_res = none then 0 else 1) ∧
    (cursor_gc (cursor_gc w cur).1 (cursor_gc w cur).2).1.unref_calls
      = w.unref_calls ++ (if cur.conn = LUA_NOREF then [] else [cur.conn]) ∧
    (cursor_gc w cur).2.my_res = none ∧ (cursor_gc w cur).2.conn = LUA_NOREF := by
  have hidem : cursor_gc (cursor_gc w cur).1 (cursor_gc w cur).2 = cursor_gc w cur := by
    unfold cursor_gc
    exact cursor_nullify_released _ _ (cursor_nullify_fields w cur).1
      (cursor_nullify_fields w cur).2.1
  refine ⟨hidem, ?_, ?_, ?_, ?_⟩
  · rw [hidem]
    unfold cursor_gc cursor_nullify
    cases hres : cur.my_res <;> by_cases hc : cur.conn = LUA_NOREF <;> simp [hres, hc]
  · rw [hidem]
    unfold cursor_gc cursor_nullify
    cases hres : cur.my_res <;> by_cases hc : cur.conn = LUA_NOREF <;> simp [hres, hc]
  · exact (cursor_nullify_fields w cur).1
  · exact (cursor_nullify_fields w cur).2.1

/-! ## C7: `fetchAll` always releases -/

theorem mysql_fetch_lengths_some (res res1 : MYSQL_RES) (row : MYSQL_ROW)
    (h : mysql_fetch_row res = (some row, res1)) :
    ∃ ls, (mysql_fetch_lengths res1).1 = some ls := by
  unfold mysql_fetch_row at h
  split at h
  · simp at h
  · split at h <;> simp only [Prod.mk.injEq] at h <;> obtain ⟨_, h2⟩ := h <;> subst h2 <;>
      simp_all [mysql_fetch_lengths]

theorem mysql_fetch_row_cases (res : MYSQL_RES) :
    (res.pending = [] ∧ (mysql_fetch_row res).1 = none) ∨
    (∃ row rest, res.pending = row :: rest ∧ (mysql_fetch_row res).1 = some row ∧
      (mysql_fetch_row res).2.pending = rest) := by
  unfold mysql_fetch_row
  cases hp : res.pending with
  | nil => left; simp
  | cons row rest =>
    right
    refine ⟨row, rest, rfl, ?_⟩
    by_cases hs : res.stored = true <;> simp [hs]

theorem lazy_fields_some (cf : Option (List MYSQL_FIELD)) (res : MYSQL_RES) :
    ∃ fl, (if cf = none then mysql_fetch_fields res else cf) = some fl := by
  cases cf with
  | none => exact ⟨res.fields, by simp [mysql_fetch_fields]⟩
  | some fl => exact ⟨fl, by simp⟩

theorem cursor_fetch_all_shape (w : World) (cur : Cursor) (opt : Option String)
    (res : MYSQL_RES) (hres : cur.my_res = some res) (hmode : cur.fetch_all ≠ 0) :
    ∃ r c res1, cursor_fetch_all w cur opt = (Except.ok r, cursor_nullify w c) ∧
      c.my_res = some res1 ∧ c.conn = cur.conn ∧
      (res.pending = [] ∨ cur.numcols = 0 → r = none) ∧
      (res.pending ≠ [] ∧ cur.numcols ≠ 0 → r ≠ none) := by
  unfold cursor_fetch_all
  simp only [hres]
  rw [if_neg hmode]
  rcases mysql_fetch_row_cases res with ⟨hp, hnone⟩ | ⟨row, rest, hp, hsome, _⟩
  · rcases hrow : mysql_fetch_row res with ⟨r0, res1⟩
    rw [hrow] at hnone
    simp only at hnone
    subst hnone
    exact ⟨none, _, res1, rfl, rfl, rfl, fun _ => rfl, fun h => absurd hp h.1⟩
  · rcases hrow : mysql_fetch_row res with ⟨r0, res1⟩
    have hrow1 := hrow
    rw [hrow] at hsome
    simp only at hsome
    subst hsome
    have hne : res.pending ≠ [] := by simp [hp]
    by_cases hn : cur.numcols = 0
    · simp only
      rw [if_pos hn]
      exact ⟨none, _, res1, rfl, rfl, rfl, fun _ => rfl, fun h => absurd hn h.2⟩
    · obtain ⟨ls, hls⟩ := mysql_fetch_lengths_some res res1 row hrow1
      obtain ⟨fl, hfl⟩ := lazy_fields_some cur.fields res1
      simp only
      rw [if_neg hn, hls, hfl]
      exact ⟨some _, _, _, rfl, rfl, rfl,
        fun h => by rcases h with h | h; exact absurd h hne; exact absurd h hn,
        fun _ => by simp⟩

theorem cursor_fetch_all_effect (w : World) (cur : Cursor) (opt : Option String)
    (res : MYSQL_RES) (hres : cur.my_res = some res) (hmode : cur.fetch_all ≠ 0) :
    (∃ r, (cursor_fetch_all w cur opt).1 = Except.ok r ∧
      (res.pending = [] ∨ cur.numcols = 0 → r = none) ∧
      (res.pending ≠ [] ∧ cur.numcols ≠ 0 → r ≠ none)) ∧
    (cursor_fetch_all w cur opt).2.1.free_result_calls = w.free_result_calls + 1 ∧
    (cursor_fetch_all w cur opt).2.1.unref_calls
      = w.unref_calls ++ (if cur.conn ≠ LUA_NOREF then [cur.conn] else []) ∧
    (cursor_fetch_all w cur opt).2.2.my_res = none ∧
    (cursor_fetch_all w cur opt).2.2.fields = none ∧
    (cursor_fetch_all w cur opt).2.2.conn = LUA_NOREF := by
  obtain ⟨r, c, res1, heq, hc, hconn, hr1, hr2⟩ := cursor_fetch_all_shape w cur opt res hres hmode
  have hl := cursor_nullify_live w c res1 hc
  have hf := cursor_nullify_fields w c
  rw [heq]
  rw [hconn] at hl
  exact ⟨⟨r, rfl, hr1, hr2⟩, hl.1, hl.2.1, hf.1, hl.2.2, hf.2.1⟩

/-- C7. On a Buffered cursor (`fetch_all` set) with a live native handle, `cursor_fetch_all`
always completes without raising, and afterwards the cursor is released: exactly one
`mysql_free_result` call was made, the handle and the cached column metadata are cleared,
the connection reference was given to `luaL_unref` (once, if one was held) and is cleared.
This holds on each path: no value is returned when the first pull yields no row or the
result has zero columns, a table of rows otherwise. -/
theorem cursor_fetch_all_releases (w : World) (cur : Cursor) (opt : Option String)
    (res : MYSQL_RES) (hres : cur.my_res = some res) (hmode : cur.fetch_all ≠ 0) :
    (∃ r, (cursor_fetch_all w cur opt).1 = Except.ok r ∧
      (res.pending = [] ∨ cur.numcols = 0 → r = none) ∧
      (res.pending ≠ [] ∧ cur.numcols ≠ 0 → r ≠ none)) ∧
    (cursor_fetch_all w cur opt).2.1.free_result_calls = w.free_result_calls + 1 ∧
    (cursor_fetch_all w cur opt).2.1.unref_calls
      = w.unref_calls ++ (if cur.conn ≠ LUA_NOREF then [cur.conn] else []) ∧
    (cursor_fetch_all w cur opt).2.2.my_res = none ∧
    (cursor_fetch_all w cur opt).2.2.fields = none ∧
    (cursor_fetch_all w cur opt).2.2.conn = LUA_NOREF :=
  cursor_fetch_all_effect w cur opt res hres hmode

/-- C7, instance: `fetchAll` on the Buffered cursor over the 3-row, 2-column sample. -/
theorem cursor_fetch_all_releases_witness :
    cur3x2.my_res = some res3x2 ∧ cur3x2.fetch_all ≠ 0 ∧
    (cursor_fetch_all w0 cur3x2 none).2.1.free_result_calls = w0.free_result_calls + 1 ∧
    (cursor_fetch_all w0 cur3x2 none).2.2.my_res = none ∧
    (cursor_fetch_all w0 cur3x2 none).2.2.fields = none ∧
    (cursor_fetch_all w0 cur3x2 none).2.2.conn = LUA_NOREF :=
  ⟨rfl, by decide,
   (cursor_fetch_all_releases w0 cur3x2 none res3x2 rfl (by decide)).2.1,
   (cursor_fetch_all_releases w0 cur3x2 none res3x2 rfl (by decide)).2.2.2.1,
   (cursor_fetch_all_releases w0 cur3x2 none res3x2 rfl (by decide)).2.2.2.2.1,
   (cursor_fetch_all_releases w0 cur3x2 none res3x2 rfl (by decide)).2.2.2.2.2⟩

/-! ## C4: `fetch` on a released cursor -/

theorem cursor_fetch_no_handle (cur : Cursor) (opt : Option String) (h : cur.my_res = none) :
    cursor_fetch cur opt = (Except.error (LuaError.argerror 1 "invalid Cursor object"), cur) := by
  unfold cursor_fetch
  simp [h]

theorem fetch_seq_no_handle (cur : Cursor) (opts : List (Option String))
    (h : cur.my_res = none) :
    fetch_seq cur opts
      = (opts.map (fun _ => Except.error (LuaError.argerror 1 "invalid Cursor object")), cur) := by
  induction opts with
  | nil => rfl
  | cons o os ih => simp [fetch_seq, cursor_fetch_no_handle cur o h, ih]

theorem cursor_fetch_all_ok_released (w : World) (cur : Cursor) (opt : Option String)
    (r : Option (LuaTable (Option (LuaTable LuaValue))))
    (h : (cursor_fetch_all w cur opt).1 = Except.ok r) :
    (cursor_fetch_all w cur opt).2.2.my_res = none := by
  cases hres : cur.my_res with
  | none => simp [cursor_fetch_all, hres] at h
  | some res =>
    by_cases hmode : cur.fetch_all = 0
    · simp [cursor_fetch_all, hres, hmode] at h
    · exact (cursor_fetch_all_effect w cur opt res hres hmode).2.2.2.1

/-- C4, refuted as stated: after a completed `fetchAll` on the Buffered 3-row, 2-column
sample cursor, and likewise after a release by `cursor_gc`, the cursor has no native handle,
and the next `fetch` raises the argument error "invalid Cursor object" where the claim
expects the "no more rows" result (no value, no error). -/
theorem released_fetch_raises :
    (cursor_fetch_all w0 cur3x2 none).2.2.my_res = none ∧
    (cursor_fetch (cursor_fetch_all w0 cur3x2 none).2.2 none).1
      = Except.error (LuaError.argerror 1 "invalid Cursor object") ∧
    (cursor_fetch (cursor_fetch_all w0 cur3x2 none).2.2 none).1 ≠ Except.ok none ∧
    (cursor_fetch (cursor_gc w0 cur3x2).2 none).1
      = Except.error (LuaError.argerror 1 "invalid Cursor object") := by
  have h1 : (cursor_fetch_all w0 cur3x2 none).2.2.my_res = none :=
    (cursor_fetch_all_effect w0 cur3x2 none res3x2 rfl (by decide)).2.2.2.1
  have h2 := cursor_fetch_no_handle (cursor_fetch_all w0 cur3x2 none).2.2 none h1
  have h3 := cursor_fetch_no_handle (cursor_gc w0 cur3x2).2 none
    (cursor_nullify_fields w0 cur3x2).1
  refine ⟨h1, ?_, ?_, ?_⟩
  · rw [h2]
  · rw [h2]
    simp
  · rw [h3]

/-- C4, amended. A cursor is released by `cursor_gc` and by every `fetchAll` that completes
without raising: its native handle is then NULL.  On such a cursor every `fetch` call,
whatever its option and however many calls are made in a row, raises the argument error
"invalid Cursor object", and leaves the cursor as it is. -/
theorem released_cursor_fetch (w : World) (cur : Cursor) (opt : Option String)
    (opts : List (Option String)) :
    fetch_seq (cursor_gc w cur).2 opts
      = (opts.map (fun _ => Except.error (LuaError.argerror 1 "invalid Cursor object")),
         (cursor_gc w cur).2) ∧
    (∀ r, (cursor_fetch_all w cur opt).1 = Except.ok r →
      fetch_seq (cursor_fetch_all w cur opt).2.2 opts
        = (opts.map (fun _ => Except.error (LuaError.argerror 1 "invalid Cursor object")),
           (cursor_fetch_all w cur opt).2.2)) :=
  ⟨fetch_seq_no_handle _ opts (cursor_nullify_fields w cur).1,
   fun r h => fetch_seq_no_handle _ opts (cursor_fetch_all_ok_released w cur opt r h)⟩

/-! ## The `fetchAll` loop -/

theorem mysql_fetch_row_stored (res : MYSQL_RES) (hs : res.stored = true) :
    mysql_fetch_row res =
      match res.pending with
      | [] => (none, { res with current_row := none })
      | row :: rest => (some row, { res with pending := rest, current_row := some row }) := by
  unfold mysql_fetch_row
  cases res.pending <;> simp [hs]

theorem fetch_all_loop_stored (cur : Cursor) (alpha_idx : Bool) :
    ∀ (pending : List MYSQL_ROW) (res : MYSQL_RES) (row : MYSQL_ROW)
      (tbl : LuaTable (Option (LuaTable LuaValue))) (n : Int),
      res.pending = pending → res.stored = true →
      (fetch_all_loop cur alpha_idx res row tbl n).1
        = rawseti_from tbl n
            ((row :: pending).map (fun r => some (result_to_table cur r res.lengths alpha_idx))) := by
  intro pending
  induction pending with
  | nil =>
    intro res row tbl n hp hs
    rw [fetch_all_loop]
    have hf := mysql_fetch_row_stored res hs
    simp only [hp] at hf
    split
    · simp [rawseti_from]
    · rename_i h
      rw [hf] at h
      simp at h
  | cons r rest ih =>
    intro res row tbl n hp hs
    rw [fetch_all_loop]
    have hf := mysql_fetch_row_stored res hs
    simp only [hp] at hf
    split
    · rename_i h
      rw [hf] at h
      simp at h
    · rename_i row1 res1 h
      rw [hf] at h
      simp only [Prod.mk.injEq, Option.some.injEq] at h
      obtain ⟨h1, h2⟩ := h
      subst h1
      subst h2
      rw [ih { res with pending := rest, current_row := some r } r _ (n + 1) rfl hs]
      simp [rawseti_from]

/-! ## The row materializer: `result_to_table` -/

theorem result_to_table_congr (c1 c2 : Cursor) (hn : c1.numcols = c2.numcols)
    (hf : c1.fields = c2.fields) (row : MYSQL_ROW) (lengths : List Nat) (alpha_idx : Bool) :
    result_to_table c1 row lengths alpha_idx = result_to_table c2 row lengths alpha_idx := by
  unfold result_to_table Cursor.field
  rw [hn, hf]

theorem positional_fold (val : Nat → LuaValue) (N : Nat) :
    ∀ n, n ≤ N →
      (List.range n).foldl (fun t i => lua_rawseti t ((i + 1 : Nat) : Int) (val i))
          (lua_createtable LuaValue.nil N)
        = { array := (List.range n).map val ++ List.replicate (N - n) LuaValue.nil, node := [] } := by
  intro n
  induction n with
  | zero => intro _; simp [lua_createtable]
  | succ n ih =>
    intro hn
    rw [List.range_succ, List.foldl_append, ih (by omega)]
    have hlen : ((List.range n).map val ++ List.replicate (N - n) LuaValue.nil).length = N := by
      simp; omega
    have hrep : List.replicate (N - n) LuaValue.nil
        = LuaValue.nil :: List.replicate (N - (n + 1)) LuaValue.nil := by
      have : N - n = (N - (n + 1)) + 1 := by omega
      rw [this, List.replicate_succ]
    simp only [List.foldl_cons, List.foldl_nil, lua_rawseti, hlen]
    have hcond : (1 : Int) ≤ ((n + 1 : Nat) : Int) ∧ ((n + 1 : Nat) : Int) ≤ (N : Int) := by
      constructor <;> omega
    rw [if_pos hcond]
    have hidx : (((n + 1 : Nat) : Int) - 1).toNat = n := by omega
    rw [hidx, List.set_append_right _ _ (by simp), hrep]
    simp

/-- The positional row table: the array part holds the decoded values of the columns in
column order, one slot per column, and the hash part is empty. -/
theorem result_to_table_positional (cur : Cursor) (row : MYSQL_ROW) (lengths : List Nat) :
    result_to_table cur row lengths false
      = { array := (List.range cur.numcols).map (decode_column (cur.fields.getD []) row lengths),
          node := [] } := by
  unfold result_to_table
  simp only [Bool.false_eq_true, if_false]
  rw [positional_fold (fun i => pushvalue (cur.field i).type (row.getD i none) (lengths.getD i 0))
    cur.numcols cur.numcols (le_refl _)]
  simp [decode_column, Cursor.field]

theorem luaH_get_set {V : Type} (l : List (LuaKey × V)) (k k1 : LuaKey) (v : V) :
    luaH_get (luaH_set l k v) k1 = if k = k1 then some v else luaH_get l k1 := by
  induction l with
  | nil => simp [luaH_set, luaH_get]
  | cons kv rest ih =>
    obtain ⟨k0, v0⟩ := kv
    by_cases h0 : k0 = k
    · subst h0
      by_cases h1 : k0 = k1 <;> simp [luaH_set, luaH_get, h1]
    · by_cases h1 : k0 = k1
      · subst h1
        simp [luaH_set, luaH_get, h0, Ne.symm h0]
      · simp [luaH_set, luaH_get, h0, h1, ih]

theorem luaH_set_keys {V : Type} (l : List (LuaKey × V)) (k : LuaKey) (v : V) :
    (luaH_set l k v).map Prod.fst
      = if k ∈ l.map Prod.fst then l.map Prod.fst else l.map Prod.fst ++ [k] := by
  induction l with
  | nil => simp [luaH_set]
  | cons kv rest ih =>
    obtain ⟨k0, v0⟩ := kv
    by_cases h0 : k0 = k
    · subst h0
      simp [luaH_set]
    · have h0s : ¬ k = k0 := fun h => h0 h.symm
      by_cases hm : k ∈ rest.map Prod.fst
      · simp only [luaH_set, h0, if_false, List.map_cons, ih, hm, if_true, List.mem_cons, or_true]
      · simp only [luaH_set, h0, if_false, List.map_cons, ih, hm, List.mem_cons, h0s, or_self,
          List.cons_append]

theorem luaH_set_nodup {V : Type} (l : List (LuaKey × V)) (k : LuaKey) (v : V)
    (h : (l.map Prod.fst).Nodup) : ((luaH_set l k v).map Prod.fst).Nodup := by
  rw [luaH_set_keys]
  by_cases hm : k ∈ l.map Prod.fst
  · simp only [hm, if_true]
    exact h
  · simp only [hm, if_false]
    exact List.Nodup.append h (List.nodup_singleton k) (by simpa using hm)

theorem luaH_get_none {V : Type} (l : List (LuaKey × V)) (k : LuaKey)
    (h : k ∉ l.map Prod.fst) : l.filter (fun kv => decide (kv.1 = k)) = [] := by
  rw [List.filter_eq_nil_iff]
  intro kv hkv
  simp only [decide_eq_true_eq]
  intro hk
  exact h (by rw [← hk]; exact List.mem_map_of_mem _ hkv)

theorem luaH_filter_of_get {V : Type} (l : List (LuaKey × V)) (k : LuaKey) (v : V)
    (hnd : (l.map Prod.fst).Nodup) (h : luaH_get l k = some v) :
    l.filter (fun kv => decide (kv.1 = k)) = [(k, v)] := by
  induction l with
  | nil => simp [luaH_get] at h
  | cons kv rest ih =>
    obtain ⟨k0, v0⟩ := kv
    simp only [List.map_cons, List.nodup_cons] at hnd
    by_cases h0 : k0 = k
    · subst h0
      simp only [luaH_get, if_true, Option.some.injEq] at h
      subst h
      simp [List.filter_cons, luaH_get_none rest k0 hnd.1]
    · simp only [luaH_get, h0, if_false] at h
      simp [List.filter_cons, h0, ih hnd.2 h]

theorem keyed_fold (name : Nat → String) (val : Nat → LuaValue) :
    ∀ n,
      ((List.range n).foldl (fun t i => lua_setfield t (name i) (val i))
          (lua_createtable LuaValue.nil 0)).array = [] ∧
      (((List.range n).foldl (fun t i => lua_setfield t (name i) (val i))
          (lua_createtable LuaValue.nil 0)).node.map Prod.fst).Nodup ∧
      ∀ i, i < n → (∀ j, i < j → j < n → name j ≠ name i) →
        luaH_get ((List.range n).foldl (fun t i => lua_setfield t (name i) (val i))
          (lua_createtable LuaValue.nil 0)).node (LuaKey.str (name i)) = some (val i) := by
  intro n
  induction n with
  | zero => simp [lua_createtable]
  | succ n ih =>
    obtain ⟨harr, hnd, hget⟩ := ih
    rw [List.range_succ, List.foldl_append]
    simp only [List.foldl_cons, List.foldl_nil, lua_setfield]
    refine ⟨harr, luaH_set_nodup _ _ _ hnd, ?_⟩
    intro i hi hlast
    rw [luaH_get_set]
    by_cases hin : i = n
    · subst hin
      simp
    · have hlt : i < n := by omega
      have hne : name n ≠ name i := hlast n hlt (by omega)
      have hkey : ¬ LuaKey.str (name n) = LuaKey.str (name i) := by
        intro h
        exact hne (LuaKey.str.inj h)
      rw [if_neg hkey]
      exact hget i hlt (fun j h1 h2 => hlast j h1 (by omega))

/-! ## C9: keyed materialization with duplicate column names -/

/-- C9. In the keyed row table `result_to_table` builds, every column name has a single
entry, and it holds the decoded value of the last column carrying that name: if column `i`
is the last one of its name, the nodes of the table whose key is that name are exactly one
node, holding `decode(type i, buffer i, length i)`, and reading the field by that name
gives that value (a nil value reads as nil). -/
theorem keyed_last_write_wins (cur : Cursor) (row : MYSQL_ROW) (lengths : List Nat) (i : Nat)
    (hi : i < cur.numcols)
    (hlast : ∀ j, i < j → j < cur.numcols → (cur.field j).name ≠ (cur.field i).name) :
    (result_to_table cur row lengths true).node.filter
        (fun kv => decide (kv.1 = LuaKey.str (cur.field i).name))
      = [(LuaKey.str (cur.field i).name, decode_column (cur.fields.getD []) row lengths i)] ∧
    lua_getfield LuaValue.nil (result_to_table cur row lengths true) (cur.field i).name
      = decode_column (cur.fields.getD []) row lengths i ∧
    (result_to_table cur row lengths true).array = [] := by
  obtain ⟨harr, hnd, hget⟩ := keyed_fold (fun i => (cur.field i).name)
    (fun i => pushvalue (cur.field i).type (row.getD i none) (lengths.getD i 0)) cur.numcols
  have hg := hget i hi hlast
  have hdec : decode_column (cur.fields.getD []) row lengths i
      = pushvalue (cur.field i).type (row.getD i none) (lengths.getD i 0) := by
    simp [decode_column, Cursor.field]
  unfold result_to_table lua_getfield
  simp only [if_true]
  rw [hdec]
  refine ⟨luaH_filter_of_get _ _ _ hnd hg, ?_, harr⟩
  rw [hg]
  rfl

/-- C9, instance: for the columns (a, a) with the values 1 and 2, the keyed row has the
one key "a", holding the second column's value 2. -/
theorem keyed_last_write_wins_witness :
    (1 < cur_aa.numcols) ∧
    (result_to_table cur_aa [some (ascii "1"), some (ascii "2")] [1, 1] true).node
      = [(LuaKey.str "a", LuaValue.integer 2)] ∧
    (result_to_table cur_aa [some (ascii "1"), some (ascii "2")] [1, 1] true).node.filter
        (fun kv => decide (kv.1 = LuaKey.str (cur_aa.field 1).name))
      = [(LuaKey.str (cur_aa.field 1).name,
          decode_column (cur_aa.fields.getD []) [some (ascii "1"), some (ascii "2")] [1, 1] 1)] :=
  ⟨by decide, by decide,
   (keyed_last_write_wins cur_aa [some (ascii "1"), some (ascii "2")] [1, 1] 1 (by decide)
      (fun j h1 h2 => absurd h2 (by simp only [cur_aa]; omega))).1⟩

/-! ## C2: `fetch` returns one positional row and keeps the cursor open -/

/-- The cursor `fetch` leaves when it pulls a row: the handle advanced by one row, the
column metadata cached. -/
theorem cursor_fetch_row (cur : Cursor) (opt : Option String) (res : MYSQL_RES)
    (row : MYSQL_ROW) (rest : List MYSQL_ROW)
    (hres : cur.my_res = some res) (hrow : res.pending = row :: rest) :
    ∃ res2 fl, cursor_fetch cur opt
        = (Except.ok (some (result_to_table { cur with my_res := some res2, fields := some fl }
              row (row_lengths row) (alpha_option opt))),
           { cur with my_res := some res2, fields := some fl }) ∧
      res2.pending = rest ∧ res2.fields = res.fields ∧ res2.stored = res.stored ∧
      res2.current_row = some row ∧ res2.lengths = row_lengths row ∧
      fl = (if cur.fields = none then res.fields else cur.fields.getD []) := by
  unfold cursor_fetch
  simp only [hres]
  unfold mysql_fetch_row
  simp only [hrow]
  by_cases hs : res.stored = true
  · cases hf : cur.fields with
    | none =>
      refine ⟨{ res with pending := rest, current_row := some row, lengths := row_lengths row },
        res.fields, ?_, rfl, rfl, rfl, rfl, rfl, rfl⟩
      simp [hs, mysql_fetch_lengths, mysql_fetch_fields]
    | some fl =>
      refine ⟨{ res with pending := rest, current_row := some row, lengths := row_lengths row },
        fl, ?_, rfl, rfl, rfl, rfl, rfl, by simp⟩
      simp [hs, mysql_fetch_lengths]
  · cases hf : cur.fields with
    | none =>
      refine ⟨{ res with pending := rest, current_row := some row, lengths := row_lengths row,
                         row_count := res.row_count + 1 },
        res.fields, ?_, rfl, rfl, rfl, rfl, rfl, rfl⟩
      simp [hs, mysql_fetch_lengths, mysql_fetch_fields]
    | some fl =>
      refine ⟨{ res with pending := rest, current_row := some row, lengths := row_lengths row,
                         row_count := res.row_count + 1 },
        fl, ?_, rfl, rfl, rfl, rfl, rfl, by simp⟩
      simp [hs, mysql_fetch_lengths]

theorem rawgeti_positional (val : Nat → LuaValue) (N i : Nat) (hi : i < N) :
    lua_rawgeti LuaValue.nil { array := (List.range N).map val, node := [] } ((i + 1 : Nat) : Int)
      = val i := by
  unfold lua_rawgeti
  have hcond : (1 : Int) ≤ ((i + 1 : Nat) : Int) ∧
      ((i + 1 : Nat) : Int) ≤ ((((List.range N).map val).length : Nat) : Int) := by
    simp only [List.length_map, List.length_range]
    constructor <;> omega
  have hidx : (((i + 1 : Nat) : Int) - 1).toNat = i := by omega
  simp only [hcond, and_self, if_true, hidx]
  simp [List.getElem?_range hi]

/-- C2. On a cursor with a live native handle whose next native fetch yields a row, `fetch`
without the option "a" returns one positional row table: its array part has `numcols`
slots and its hash part is empty, and for every column position `i + 1` (1-based) the slot
reads as `decode(type of column i, buffer i of the row, byte length i of the row)`.  The
cursor stays open: the handle is kept (advanced by the one row pulled, the column metadata
now cached), and the connection reference, the mode and the column count are unchanged;
`cursor_fetch` has no access to the release calls.  The cached column metadata, when
present beforehand, is assumed to be that of the handle, as `fetch` itself caches it. -/
theorem cursor_fetch_positional (cur : Cursor) (opt : Option String) (res : MYSQL_RES)
    (row : MYSQL_ROW) (rest : List MYSQL_ROW)
    (hres : cur.my_res = some res) (hrow : res.pending = row :: rest)
    (hopt : opt ≠ some "a") (hfields : cur.fields = none ∨ cur.fields = some res.fields) :
    ∃ tbl cur1 res1, cursor_fetch cur opt = (Except.ok (some tbl), cur1) ∧
      tbl.array.length = cur.numcols ∧ tbl.node = [] ∧
      (∀ i, i < cur.numcols →
        lua_rawgeti LuaValue.nil tbl ((i + 1 : Nat) : Int)
          = decode_column res.fields row (row_lengths row) i) ∧
      cur1.my_res = some res1 ∧ res1.pending = rest ∧ res1.fields = res.fields ∧
      cur1.fields = some res.fields ∧
      cur1.conn = cur.conn ∧ cur1.fetch_all = cur.fetch_all ∧ cur1.numcols = cur.numcols := by
  obtain ⟨res2, fl, heq, hpend, hfl2, _, _, _, hfl⟩ := cursor_fetch_row cur opt res row rest hres hrow
  have hflres : fl = res.fields := by
    rcases hfields with h | h <;> simp [hfl, h]
  subst hflres
  have halpha : alpha_option opt = false := by
    unfold alpha_option
    cases opt with
    | none => rfl
    | some o =>
      have : o ≠ "a" := fun h => hopt (by rw [h])
      simp [this]
  rw [halpha, result_to_table_positional] at heq
  refine ⟨_, _, res2, heq, by simp, rfl, ?_, rfl, hpend, hfl2, rfl, rfl, rfl, rfl⟩
  intro i hi
  exact rawgeti_positional _ _ i hi

/-- C2, instance: the first `fetch` on the 3-row, 2-column sample returns the row [1, 10]
and leaves two rows pending. -/
theorem cursor_fetch_positional_witness :
    cur3x2.my_res = some res3x2 ∧
    res3x2.pending = [some (ascii "1"), some (ascii "10")]
      :: [[some (ascii "2"), none], [some (ascii "3"), some (ascii "30")]] ∧
    (cursor_fetch cur3x2 none).1
      = Except.ok (some { array := [LuaValue.integer 1, LuaValue.integer 10], node := [] }) ∧
    ∃ tbl cur1 res1, cursor_fetch cur3x2 none = (Except.ok (some tbl), cur1) ∧
      tbl.array.length = cur3x2.numcols ∧ tbl.node = [] ∧
      (∀ i, i < cur3x2.numcols →
        lua_rawgeti LuaValue.nil tbl ((i + 1 : Nat) : Int)
          = decode_column res3x2.fields [some (ascii "1"), some (ascii "10")]
              (row_lengths [some (ascii "1"), some (ascii "10")]) i) ∧
      cur1.my_res = some res1 ∧
      res1.pending = [[some (ascii "2"), none], [some (ascii "3"), some (ascii "30")]] ∧
      res1.fields = res3x2.fields ∧ cur1.fields = some res3x2.fields ∧
      cur1.conn = cur3x2.conn ∧ cur1.fetch_all = cur3x2.fetch_all ∧
      cur1.numcols = cur3x2.numcols :=
  ⟨rfl, rfl, by decide,
   cursor_fetch_positional cur3x2 none res3x2 [some (ascii "1"), some (ascii "10")]
     [[some (ascii "2"), none], [some (ascii "3"), some (ascii "30")]] rfl rfl (by decide)
     (Or.inl rfl)⟩

/-! ## `fetchAll` on a stored result -/

/-- What `fetchAll` returns on a Buffered cursor over a stored result with a row pending
and at least one column: one row table per pending row, in fetch order, stored at the
indices 1, 2, ...; every one of them is built with the byte lengths of the FIRST row
pulled, since `lengths` is read once before the loop. -/
theorem cursor_fetch_all_stored (w : World) (cur : Cursor) (opt : Option String)
    (res : MYSQL_RES) (row : MYSQL_ROW) (rest : List MYSQL_ROW)
    (hres : cur.my_res = some res) (hmode : cur.fetch_all ≠ 0) (hs : res.stored = true)
    (hp : res.pending = row :: rest) (hn : cur.numcols ≠ 0) :
    (cursor_fetch_all w cur opt).1
      = Except.ok (some (rawseti_from (lua_createtable none (to_int res.row_count)) 1
          ((row :: rest).map (fun r => some
            (result_to_table { cur with fields := some (cur.fields.getD res.fields) } r
              (row_lengths row) (alpha_option opt)))))) := by
  unfold cursor_fetch_all
  simp only [hres]
  rw [if_neg hmode, mysql_fetch_row_stored res hs]
  simp only [hp]
  rw [if_neg hn]
  have hl : mysql_fetch_lengths { res with pending := rest, current_row := some row }
      = (some (row_lengths row),
         { res with pending := rest, current_row := some row, lengths := row_lengths row }) := by
    simp [mysql_fetch_lengths, hs]
  have hf : (if cur.fields = none
        then mysql_fetch_fields { res with pending := rest, current_row := some row }
        else cur.fields) = some (cur.fields.getD res.fields) := by
    cases cur.fields <;> simp [mysql_fetch_fields]
  rw [hl, hf]
  simp only
  rw [fetch_all_loop_stored _ _ rest
    { res with pending := rest, current_row := some row, lengths := row_lengths row } _ _ _ rfl hs]
  simp only [mysql_num_rows]
  congr 3

/-! ## C1: `fetchAll` against successive `fetch` calls -/

/-- C1, the code at the failing input: a Buffered cursor over the stored result of two rows
and one text column, "a" then "bcd".  `fetchAll` returns two rows, but the second one holds
"b": the bytes of the second row cut to the length of the first.  Two `fetch` calls on
the same cursor return "a" and "bcd", each row with its own length. -/
theorem cursor_fetch_all_stale_lengths :
    (cursor_fetch_all w0 cur2x1 none).1
      = Except.ok (some
          { array := [some { array := [LuaValue.string (ascii "a")], node := [] },
                      some { array := [LuaValue.string (ascii "b")], node := [] }],
            node := [] }) ∧
    (fetch_seq cur2x1 [none, none]).1
      = [Except.ok (some { array := [LuaValue.string (ascii "a")], node := [] }),
         Except.ok (some { array := [LuaValue.string (ascii "bcd")], node := [] })] ∧
    result_to_table { cur2x1 with fields := some res2x1.fields } [some (ascii "bcd")]
        (row_lengths [some (ascii "bcd")]) false
      = { array := [LuaValue.string (ascii "bcd")], node := [] } := by
  refine ⟨?_, by decide, by decide⟩
  rw [cursor_fetch_all_stored w0 cur2x1 none res2x1 [some (ascii "a")] [[some (ascii "bcd")]]
    rfl (by decide) rfl rfl (by decide)]
  decide

/-- C4, amended, instance: `fetchAll` on the 3-row, 2-column sample completes with the
three rows, and the three `fetch` calls that follow all raise. -/
theorem released_cursor_fetch_witness :
    (cursor_fetch_all w0 cur3x2 none).1
      = Except.ok (some
          { array := [some { array := [LuaValue.integer 1, LuaValue.integer 10], node := [] },
                      some { array := [LuaValue.integer 2, LuaValue.nil], node := [] },
                      some { array := [LuaValue.integer 3, LuaValue.integer 30], node := [] }],
            node := [] }) ∧
    fetch_seq (cursor_fetch_all w0 cur3x2 none).2.2 [none, some "a", none]
      = ([Except.error (LuaError.argerror 1 "invalid Cursor object"),
          Except.error (LuaError.argerror 1 "invalid Cursor object"),
          Except.error (LuaError.argerror 1 "invalid Cursor object")],
         (cursor_fetch_all w0 cur3x2 none).2.2) := by
  have hev : (cursor_fetch_all w0 cur3x2 none).1
      = Except.ok (some
          { array := [some { array := [LuaValue.integer 1, LuaValue.integer 10], node := [] },
                      some { array := [LuaValue.integer 2, LuaValue.nil], node := [] },
                      some { array := [LuaValue.integer 3, LuaValue.integer 30], node := [] }],
            node := [] }) := by
    rw [cursor_fetch_all_stored w0 cur3x2 none res3x2 [some (ascii "1"), some (ascii "10")]
      [[some (ascii "2"), none], [some (ascii "3"), some (ascii "30")]]
      rfl (by decide) rfl rfl (by decide)]
    decide
  exact ⟨hev, (released_cursor_fetch w0 cur3x2 none [none, some "a", none]).2 _ hev⟩

/-! ## C5: `fetchAll` on a Streaming cursor -/

theorem cursor_fetch_keeps (cur : Cursor) (opt : Option String) :
    (cursor_fetch cur opt).2.fetch_all = cur.fetch_all ∧
    (cursor_fetch cur opt).2.conn = cur.conn ∧
    (cursor_fetch cur opt).2.numcols = cur.numcols ∧
    (cur.my_res ≠ none → (cursor_fetch cur opt).2.my_res ≠ none) := by
  unfold cursor_fetch
  cases hres : cur.my_res with
  | none => simp
  | some res =>
    simp only
    rcases mysql_fetch_row res with ⟨_ | row, res1⟩
    · simp
    · simp only
      split <;> simp

theorem fetch_seq_keeps (cur : Cursor) (opts : List (Option String)) :
    (fetch_seq cur opts).2.fetch_all = cur.fetch_all ∧
    (fetch_seq cur opts).2.conn = cur.conn ∧
    (fetch_seq cur opts).2.numcols = cur.numcols ∧
    (cur.my_res ≠ none → (fetch_seq cur opts).2.my_res ≠ none) := by
  induction opts generalizing cur with
  | nil => simp [fetch_seq]
  | cons o os ih =>
    obtain ⟨h1, h2, h3, h4⟩ := cursor_fetch_keeps cur o
    obtain ⟨i1, i2, i3, i4⟩ := ih (cursor_fetch cur o).2
    simp only [fetch_seq]
    exact ⟨i1.trans h1, i2.trans h2, i3.trans h3, fun h => i4 (h4 h)⟩

theorem conn_execute_use (conn : Connection) (stmt : String) (ref : Int) (cur : Cursor)
    (h : conn_execute conn stmt (some "use") ref = Except.ok (ExecReturn.cursor cur)) :
    cur.fetch_all = 0 ∧ cur.my_res ≠ none ∧ cur.my_res = conn.my_conn.use_result := by
  unfold conn_execute at h
  by_cases hc : conn.closed = 0
  · by_cases hq : mysql_real_query conn.my_conn stmt = 0
    · simp only [hc, hq] at h
      cases hu : conn.my_conn.use_result with
      | none =>
        simp only [hu] at h
        by_cases hn : conn.my_conn.field_count = 0 <;> simp [hn] at h
      | some r =>
        simp [hu, create_cursor] at h
        subst h
        simp
    · simp [hc, hq] at h
  · simp [hc] at h

/-- C5. A cursor that `conn_execute` created with the fetch mode "use" is Streaming
(`fetch_all` is 0) and stays so: after any number of `fetch` calls on it, `fetchAll` raises
the argument error "not compatible with execute()" and returns no data; the release calls
made and the cursor are exactly as before the call, so no row was pulled, the handle was
not freed and the connection reference was not dropped. -/
theorem streaming_fetch_all_raises (conn : Connection) (stmt : String) (ref : Int)
    (cur : Cursor)
    (hexec : conn_execute conn stmt (some "use") ref = Except.ok (ExecReturn.cursor cur))
    (w : World) (opts : List (Option String)) (opt : Option String) :
    cursor_fetch_all w (fetch_seq cur opts).2 opt
      = (Except.error (LuaError.argerror 1 "not compatible with execute()"), w,
         (fetch_seq cur opts).2) := by
  obtain ⟨hfa, hlive, _⟩ := conn_execute_use conn stmt ref cur hexec
  obtain ⟨k1, _, _, k4⟩ := fetch_seq_keeps cur opts
  have hfa1 : (fetch_seq cur opts).2.fetch_all = 0 := k1.trans hfa
  have hlive1 := k4 hlive
  unfold cursor_fetch_all
  cases hres : (fetch_seq cur opts).2.my_res with
  | none => exact absurd hres hlive1
  | some res => simp [hfa1]

/-- C5, instance: `execute(..., "use")` on the sample connection, one `fetch`, then
`fetchAll`. -/
theorem streaming_fetch_all_raises_witness :
    conn_execute conn_select "SELECT id, n FROM t" (some "use") 7
      = Except.ok (ExecReturn.cursor (create_cursor 7 res3x2_use 2 0)) ∧
    cursor_fetch_all w0 (fetch_seq (create_cursor 7 res3x2_use 2 0) [none]).2 none
      = (Except.error (LuaError.argerror 1 "not compatible with execute()"), w0,
         (fetch_seq (create_cursor 7 res3x2_use 2 0) [none]).2) :=
  ⟨by decide,
   streaming_fetch_all_raises conn_select "SELECT id, n FROM t" 7
     (create_cursor 7 res3x2_use 2 0) (by decide) w0 [none] none⟩

/-! ## C6: `numrows` -/

/-- C6, refuted as stated: on the Streaming cursor that `execute(..., "use")` creates on the
sample connection, `numrows` returns the integer 0 and raises nothing. -/
theorem streaming_numrows_returns_integer :
    conn_execute conn_select "SELECT id, n FROM t" (some "use") 7
      = Except.ok (ExecReturn.cursor (create_cursor 7 res3x2_use 2 0)) ∧
    (create_cursor 7 res3x2_use 2 0).fetch_all = 0 ∧
    cursor_numrows (create_cursor 7 res3x2_use 2 0) = Except.ok 0 := by
  decide

/-- C6, amended. `numrows` makes no mode check: on every cursor with a live native handle,
Streaming or Buffered, it returns as an integer the row count the native handle reports
(`mysql_num_rows`, converted to a 64-bit signed integer, which is the count itself below
2^63).  It raises the argument error "invalid Cursor object" exactly when the handle has
been released. -/
theorem cursor_numrows_any_mode (cur : Cursor) :
    (∀ res, cur.my_res = some res →
      cursor_numrows cur = Except.ok (to_lua_Integer (mysql_num_rows res)) ∧
      (mysql_num_rows res < 2 ^ 63 → to_lua_Integer (mysql_num_rows res) = mysql_num_rows res)) ∧
    (cur.my_res = none →
      cursor_numrows cur = Except.error (LuaError.argerror 1 "invalid Cursor object")) := by
  constructor
  · intro res hres
    constructor
    · simp [cursor_numrows, hres]
    · intro hlt
      unfold to_lua_Integer
      omega
  · intro hres
    simp [cursor_numrows, hres]

/-- C6, amended, instance: a Streaming cursor after one `fetch` reports one row; the
Buffered sample cursor reports three. -/
theorem cursor_numrows_any_mode_witness :
    (cursor_fetch (create_cursor 7 res3x2_use 2 0) none).2.fetch_all = 0 ∧
    cursor_numrows (cursor_fetch (create_cursor 7 res3x2_use 2 0) none).2 = Except.ok 1 ∧
    cursor_numrows cur3x2 = Except.ok (to_lua_Integer (mysql_num_rows res3x2)) ∧
    to_lua_Integer (mysql_num_rows res3x2) = 3 :=
  ⟨by decide, by decide, ((cursor_numrows_any_mode cur3x2).1 res3x2 rfl).1, by decide⟩

/-! ## C10: `execute` -/

/-- The outcomes of `conn_execute` on an open connection.  When `mysql_real_query` fails it
raises an error carrying the native code and text.  When it succeeds and the native
retrieval call (`mysql_use_result` for the mode "use", `mysql_store_result` for "store",
for no mode and for any other text) yields a handle, it returns a new cursor over that
handle, with `fetch_all` 0 for "use" and 1 otherwise, whose column count is the native
field count.  When the retrieval yields no handle, it returns the native affected-row count
as an integer if the field count is 0, and no value at all, without raising, if the field
count is not 0. -/
theorem conn_execute_cases (conn : Connection) (stmt : String) (fetch_opt : Option String)
    (ref : Int) (hopen : conn.closed = 0) :
    (mysql_real_query conn.my_conn stmt ≠ 0 →
      conn_execute conn stmt fetch_opt ref
        = Except.error (LuaError.error
            (toString (mysql_real_query conn.my_conn stmt) ++ ": " ++ conn.my_conn.error ++ "\n"))) ∧
    (mysql_real_query conn.my_conn stmt = 0 →
      (∀ r, fetch_opt = some "use" → conn.my_conn.use_result = some r →
        conn_execute conn stmt fetch_opt ref
          = Except.ok (ExecReturn.cursor
              { conn := ref, fetch_all := 0, numcols := conn.my_conn.field_count,
                my_res := some r, fields := none })) ∧
      (∀ r, fetch_opt ≠ some "use" → conn.my_conn.store_result = some r →
        conn_execute conn stmt fetch_opt ref
          = Except.ok (ExecReturn.cursor
              { conn := ref, fetch_all := 1, numcols := conn.my_conn.field_count,
                my_res := some r, fields := none })) ∧
      ((if fetch_opt = some "use" then conn.my_conn.use_result else conn.my_conn.store_result)
          = none →
        conn.my_conn.field_count = 0 →
        conn_execute conn stmt fetch_opt ref
          = Except.ok (ExecReturn.integer (to_lua_Integer conn.my_conn.affected_rows)) ∧
        (conn.my_conn.affected_rows < 2 ^ 63 →
          to_lua_Integer conn.my_conn.affected_rows = conn.my_conn.affected_rows)) ∧
      ((if fetch_opt = some "use" then conn.my_conn.use_result else conn.my_conn.store_result)
          = none →
        conn.my_conn.field_count ≠ 0 →
        conn_execute conn stmt fetch_opt ref = Except.ok ExecReturn.nothing)) := by
  have hmode : ∀ o : Option String,
      (match o with
        | none => (1 : Int)
        | some o => if o = "store" then 1 else if o = "use" then 0 else 1)
      = if o = some "use" then 0 else 1 := by
    intro o
    cases o with
    | none => simp
    | some t =>
      by_cases h1 : t = "store"
      · subst h1
        simp
      · by_cases h2 : t = "use" <;> simp [h1, h2]
  unfold conn_execute
  simp only [hopen, ne_eq, not_true_eq_false, if_false, hmode]
  refine ⟨fun hq => by simp [hq], fun hq => ⟨?_, ?_, ?_, ?_⟩⟩
  · intro r ho hr
    simp [hq, ho, hr, create_cursor]
  · intro r ho hr
    simp [hq, ho, hr, create_cursor]
  · intro hr hn
    constructor
    · by_cases ho : fetch_opt = some "use"
      · simp only [ho, if_true] at hr
        simp [hq, ho, hr, hn]
      · simp only [ho, if_false] at hr
        simp [hq, ho, hr, hn]
    · intro hlt
      unfold to_lua_Integer
      omega
  · intro hr hn
    by_cases ho : fetch_opt = some "use"
    · simp only [ho, if_true] at hr
      simp [hq, ho, hr, hn]
    · simp only [ho, if_false] at hr
      simp [hq, ho, hr, hn]

/-- The outcomes of `conn_execute` on the samples: a SELECT in both modes gives a cursor of
the mode asked for, and an UPDATE that affects 5 rows gives the integer 5. -/
theorem conn_execute_cases_samples :
    conn_execute conn_select "SELECT id, n FROM t" (some "use") 7
      = Except.ok (ExecReturn.cursor
          { conn := 7, fetch_all := 0, numcols := 2, my_res := some res3x2_use, fields := none }) ∧
    conn_execute conn_select "SELECT id, n FROM t" (some "store") 7
      = Except.ok (ExecReturn.cursor
          { conn := 7, fetch_all := 1, numcols := 2, my_res := some res3x2, fields := none }) ∧
    conn_execute conn_update "UPDATE t SET x=1" (some "store") 7
      = Except.ok (ExecReturn.integer (to_lua_Integer conn_update.my_conn.affected_rows)) ∧
    to_lua_Integer conn_update.my_conn.affected_rows = 5 :=
  ⟨((conn_execute_cases conn_select "SELECT id, n FROM t" (some "use") 7 rfl).2 rfl).1
     res3x2_use rfl rfl,
   ((conn_execute_cases conn_select "SELECT id, n FROM t" (some "store") 7 rfl).2 rfl).2.1
     res3x2 (by decide) rfl,
   (((conn_execute_cases conn_update "UPDATE t SET x=1" (some "store") 7 rfl).2 rfl).2.2.1
     (by decide) rfl).1,
   by decide⟩

/-- C10, the code at the failing input: on an open connection the query succeeds and
announces two columns, then `mysql_store_result` returns no handle (the retrieval of the
result failed).  `execute` returns no value at all: no cursor, and no error either, in the
mode "store" as in the mode "use".  When it is `mysql_real_query` that fails, the same
function raises an error with the native code and text. -/
theorem execute_without_handle_returns_nothing :
    conn_store_fails.closed = 0 ∧
    mysql_real_query conn_store_fails.my_conn "SELECT 1, 2" = 0 ∧
    0 < conn_store_fails.my_conn.field_count ∧
    conn_store_fails.my_conn.store_result = none ∧
    conn_execute conn_store_fails "SELECT 1, 2" (some "store") 7 = Except.ok ExecReturn.nothing ∧
    conn_execute conn_store_fails "SELECT 1, 2" (some "use") 7 = Except.ok ExecReturn.nothing ∧
    conn_execute conn_query_fails "SELEC 1, 2" (some "store") 7
      = Except.error (LuaError.error "1: You have an error in your SQL syntax\n") := by
  decide

end LuaMysql
